import Mathlib

/-!
Shallow embedding of the Resume-Screening-RAG frontend
(`src/unnamed/part_000`: ChatInterface.tsx, FileUpload.tsx, MatchAnalysis.tsx,
api.ts; `src/unnamed/part_001`: App.tsx), together with a spec-modelled
Context Assembler for the history-truncation contract.

JavaScript conventions modelled explicitly:
* `x || d` picks `d` when `x` is falsy (absent/undefined, the empty string,
  `0`, `-0`, or `NaN`), else `x`;
* `Number(x)` yields either a numeric value or `NaN`;
* optional fields are `Option`s, `undefined` being `none`.
-/

namespace RS

/-- The `role` of a `ChatMessage` (api.ts): `"user" | "assistant"`. -/
inductive Role
  | user
  | assistant
deriving DecidableEq, Repr

/-- The `ChatMessage` (api.ts): `{ role, content }`. -/
structure ChatMessage where
  role : Role
  content : String
deriving DecidableEq, Repr

/-- The `ChatRequest` (api.ts): the exact body `JSON.stringify({ question, history })`
sent by `chat`; it has exactly these two fields. -/
structure ChatRequest where
  question : String
  history : List ChatMessage
deriving DecidableEq, Repr

/-- The `ChatResponse` (api.ts): `{ success, answer, error? }`. -/
structure ChatResponse where
  success : Bool
  answer : String
  error : Option String
deriving DecidableEq, Repr

/-- JavaScript `x || d` on an optional string: `undefined` and `""` are falsy. -/
def jsOr (x : Option String) (d : String) : String :=
  match x with
  | none => d
  | some s => if s = "" then d else s

/-- Outcome of an awaited `fetch`-based call: a parsed response, or a thrown
exception (network failure / rejected promise). -/
inductive FetchOutcome (α : Type)
  | resp (r : α)
  | thrown
deriving DecidableEq, Repr

/-! ## MatchAnalysis component (part_000, lines 230–248)

`const score = Math.max(0, Math.min(100, Number(match_score) || 0));`

`Number(match_score)` is modelled by its result: a numeric value (a rational)
or `NaN`. -/

/-- Result of `Number(match_score)`: a numeric value or `NaN`. -/
inductive NumberResult
  | nan
  | val (q : ℚ)
deriving DecidableEq, Repr

/-- The `Number(match_score) || 0`: `NaN`, `0` and `-0` are falsy, so they give `0`;
any other number gives itself. -/
def numberOrZero : NumberResult → ℚ
  | .nan => 0
  | .val q => if q = 0 then 0 else q

/-- The `Math.max(0, Math.min(100, Number(match_score) || 0))` — the score the
`MatchAnalysis` component renders. -/
def renderedScore (m : NumberResult) : ℚ :=
  max 0 (min 100 (numberOrZero m))

/-! ## ChatInterface component (part_000, lines 1–104)

State hooks: `messages`, `input`, `loading`, `error`. `handleSubmit` guards on
`(!q || loading)`, appends the user message, sets `loading`, calls
`chat(q, messages)` with the *captured* (pre-append) `messages`, and on the
settled outcome either appends the assistant message (success) or sets the
error string; `finally` resets `loading`. -/

/-- JavaScript `String.prototype.trim`: strip leading and trailing
whitespace. (Lean's own `String.trim` is extensionally the same but does not
reduce in the kernel, so the list-level definition is used.) -/
def jsTrim (s : String) : String :=
  ⟨((s.data.dropWhile Char.isWhitespace).reverse.dropWhile Char.isWhitespace).reverse⟩

/-- The `ChatInterface` component's state hooks. -/
structure ChatState where
  messages : List ChatMessage
  input : String
  loading : Bool
  error : Option String
deriving DecidableEq, Repr

/-- First, synchronous half of `handleSubmit`, up to and including the
`chat(q, messages)` call: `none` when the guard `if (!q || loading) return`
fires (no request is sent); otherwise the state after
`setInput("")`, `setError(null)`, `setMessages([...prev, userMsg])`,
`setLoading(true)`, paired with the `ChatRequest` handed to `chat` —
whose `history` is the captured `messages` from before the append. -/
def submitStart (st : ChatState) : Option (ChatState × ChatRequest) :=
  let q := jsTrim st.input
  if q = "" ∨ st.loading then none
  else some
    ({ messages := st.messages ++ [⟨Role.user, q⟩],
       input := "",
       loading := true,
       error := none },
     { question := q, history := st.messages })

/-- Second half of `handleSubmit`: how the settled `chat` outcome updates the
state. Success appends the assistant message; `success: false` sets
`error = res.error || "Failed to get response"`; a thrown request sets
`error = "Failed to send message"`; `finally` resets `loading`. -/
def submitFinish (st : ChatState) (out : FetchOutcome ChatResponse) : ChatState :=
  match out with
  | .resp r =>
      if r.success then
        { st with messages := st.messages ++ [⟨Role.assistant, r.answer⟩], loading := false }
      else
        { st with error := some (jsOr r.error ("Failed to get response")), loading := false }
  | .thrown => { st with error := some ("Failed to send message"), loading := false }

/-- The `handleSubmit` end to end: guard, send, settle. -/
def handleSubmit (st : ChatState) (out : FetchOutcome ChatResponse) : ChatState :=
  match submitStart st with
  | none => st
  | some (st1, _) => submitFinish st1 out

/-- The chat text input's `disabled={loading}`. -/
def chatInputDisabled (st : ChatState) : Bool := st.loading

/-- The send button's `disabled={loading || !input.trim()}`. -/
def sendDisabled (st : ChatState) : Bool := st.loading || (jsTrim st.input == "")

/-- The chat outcome counts as a failure: the response has `success: false`,
or the request threw. -/
def chatFailed : FetchOutcome ChatResponse → Prop
  | .resp r => r.success = false
  | .thrown => True

/-! ## App component (part_001)

State hooks: `resumeUploaded`, `jdUploaded`, `analysis`, `analysisError`,
`loading`, `backendOk`, `resumeInfo`, `jdInfo`. -/

/-- The argument of a `FileUpload` `onSuccess` callback:
`{ filename?, text_length?, message? }`. -/
structure UploadInfo where
  filename : Option String
  text_length : Option Nat
  message : Option String
deriving DecidableEq, Repr

/-- The `MatchAnalysis` payload (api.ts): the lists plus the raw
`match_score` as received (modelled by its `Number` conversion result). -/
structure MatchAnalysisData where
  match_score : NumberResult
  strengths : List String
  gaps : List String
  key_insights : List String
  skill_overlap : List String
  missing_skills : List String
deriving DecidableEq, Repr

/-- The `/api/analysis` response body: `{ success, analysis?, error? }`. -/
structure AnalysisResponse where
  success : Bool
  analysis : Option MatchAnalysisData
  error : Option String
deriving DecidableEq, Repr

/-- The `App` component's state hooks. -/
structure AppState where
  resumeUploaded : Bool
  jdUploaded : Bool
  analysis : Option MatchAnalysisData
  analysisError : Option String
  loading : Bool
  backendOk : Option Bool
  resumeInfo : Option UploadInfo
  jdInfo : Option UploadInfo
deriving DecidableEq, Repr

/-- Initial `App` state: all `useState` initialisers. -/
def initialAppState : AppState :=
  { resumeUploaded := false, jdUploaded := false, analysis := none,
    analysisError := none, loading := false, backendOk := none,
    resumeInfo := none, jdInfo := none }

/-- The `handleResumeUpload`: marks the resume uploaded, clears the displayed
analysis and its error, stores the upload info. -/
def handleResumeUpload (st : AppState) (info : UploadInfo) : AppState :=
  { st with
      resumeUploaded := true
      analysis := none
      analysisError := none
      resumeInfo := some info }

/-- The `handleJDUpload`: marks the JD uploaded, clears the displayed analysis
and its error, stores the upload info. -/
def handleJDUpload (st : AppState) (info : UploadInfo) : AppState :=
  { st with
      jdUploaded := true
      analysis := none
      analysisError := none
      jdInfo := some info }

/-- The `loadAnalysis` on a settled `/api/analysis` fetch: sets `loading`, clears
`analysisError`, installs `data.analysis` when `data.success && data.analysis`
is truthy, otherwise sets `analysisError = data.error || "Failed to load
analysis"`; a thrown fetch sets `"Failed to fetch analysis"`; `finally`
resets `loading`. -/
def loadAnalysis (st : AppState) (out : FetchOutcome AnalysisResponse) : AppState :=
  let st1 := { st with loading := true, analysisError := none }
  let st2 :=
    match out with
    | .resp d =>
        if d.success && d.analysis.isSome then
          { st1 with analysis := d.analysis }
        else
          { st1 with analysisError := some (jsOr d.error ("Failed to load analysis")) }
    | .thrown => { st1 with analysisError := some ("Failed to fetch analysis") }
  { st2 with loading := false }

/-- The `const canAnalyze = resumeUploaded && jdUploaded`. -/
def canAnalyze (st : AppState) : Bool := st.resumeUploaded && st.jdUploaded

/-- What the chat section of `App` renders:
`{!resumeUploaded ? <p className="hint">…</p> : <ChatInterface />}`. -/
inductive ChatPanel
  | hint
  | chatUI
deriving DecidableEq, Repr

/-- The chat section renders `ChatInterface` only when `resumeUploaded`. -/
def renderChatPanel (st : AppState) : ChatPanel :=
  if st.resumeUploaded then ChatPanel.chatUI else ChatPanel.hint

/-- What the analysis section of `App` renders:
`{!canAnalyze ? <p className="hint">…</p> : <>…Run analysis…</>}`. -/
inductive AnalysisPanel
  | uploadHint
  | analysisUI
deriving DecidableEq, Repr

/-- The analysis section renders the "Run analysis" button (the only place a
`/api/analysis` request originates) only when `canAnalyze`. -/
def renderAnalysisPanel (st : AppState) : AnalysisPanel :=
  if canAnalyze st then AnalysisPanel.analysisUI else AnalysisPanel.uploadHint

/-- An event that can update `App`'s state: a successful resume upload
(`FileUpload` invokes `onSuccess`), a successful JD upload, a settled
`loadAnalysis` fetch, or a settled `/health` check. -/
inductive AppEvent
  | resumeUpload (info : UploadInfo)
  | jdUpload (info : UploadInfo)
  | analysisFetch (out : FetchOutcome AnalysisResponse)
  | healthCheck (ok : Bool)
deriving DecidableEq, Repr

/-- One `App` state transition. -/
def appStep (st : AppState) : AppEvent → AppState
  | .resumeUpload info => handleResumeUpload st info
  | .jdUpload info => handleJDUpload st info
  | .analysisFetch out => loadAnalysis st out
  | .healthCheck ok => { st with backendOk := some ok }

/-- Run a sequence of `App` events from a state. -/
def appRun (st : AppState) (es : List AppEvent) : AppState :=
  es.foldl appStep st

/-- The analysis outcome counts as a failure: the response has
`success: false` or carries no `analysis` object, or the fetch threw. -/
def analysisFailed : FetchOutcome AnalysisResponse → Prop
  | .resp d => d.success = false ∨ d.analysis = none
  | .thrown => True

/-! ## FileUpload component (part_000, lines 105–222) -/

/-- The `FileUpload`'s `status` hook: `"idle" | "uploading" | "success" | "error"`. -/
inductive UploadStatus
  | idle
  | uploading
  | success
  | error
deriving DecidableEq, Repr

/-- The `FileUpload` state hooks relevant to `handleUpload`. -/
structure FileUploadState where
  file : Option String
  status : UploadStatus
  message : String
deriving DecidableEq, Repr

/-- The `detail` field of the decoded upload response body: a string, a
validation array (each item's optional `msg` field), or anything else
(including the `{}` produced when `res.json()` rejects). -/
inductive JsonDetail
  | strD (s : String)
  | arrD (items : List (Option String))
  | absent
deriving DecidableEq, Repr

/-- Decoded upload response body as `FileUpload.handleUpload` reads it. -/
structure UploadBody where
  detail : JsonDetail
  message : Option String
  filename : Option String
  text_length : Option Nat
deriving DecidableEq, Repr

/-- Outcome of the upload `fetch`: an HTTP response (`res.ok` plus decoded
body), or a thrown request — an `Error` carrying a message, or a non-`Error`
value. -/
inductive UploadFetch
  | resp (ok : Bool) (body : UploadBody)
  | netError (msg : Option String)
deriving DecidableEq, Repr

/-- The error message `handleUpload` throws for a non-OK response:
`typeof data.detail === "string" ? data.detail
 : Array.isArray(data.detail) ? data.detail[0]?.msg : "Upload failed"`,
then `err || "Upload failed"`. -/
def deriveDetailErr : JsonDetail → String
  | .strD s => jsOr (some s) ("Upload failed")
  | .arrD items => jsOr items.head?.join ("Upload failed")
  | .absent => "Upload failed"

/-- The `FileUpload.handleUpload` on a settled fetch: returns the final component
state and the argument `onSuccess` was invoked with (`none` = not invoked).
With no file selected it returns immediately. A non-OK response raises
`Error(deriveDetailErr detail)`, caught by the same handler as a network
error: `status = "error"`, `message = err.message`. An OK response sets
`status = "success"`, `message = data.message || "Uploaded"` and invokes
`onSuccess` with the body's `filename`, `text_length` and `message`. -/
def handleUpload (st : FileUploadState) (out : UploadFetch) :
    FileUploadState × Option UploadInfo :=
  match st.file with
  | none => (st, none)
  | some _ =>
    match out with
    | .resp ok body =>
        if ok then
          ({ st with status := UploadStatus.success,
                     message := jsOr body.message ("Uploaded") },
           some ⟨body.filename, body.text_length, body.message⟩)
        else
          ({ st with status := UploadStatus.error,
                     message := deriveDetailErr body.detail }, none)
    | .netError m =>
        ({ st with status := UploadStatus.error,
                   message := match m with | some s => s | none => "Upload failed" },
         none)

/-! ## API client (part_000, lines 301–379: api.ts) -/

/-- The `UploadResponse` (api.ts): `{ success, message, filename?, text_length? }`. -/
structure UploadResponse where
  success : Bool
  message : String
  filename : Option String
  text_length : Option Nat
deriving DecidableEq, Repr

/-- An HTTP response as the api-client functions consume it: `res.ok`,
`res.text()`, and the `res.json()` decoding at the response's body type. -/
structure HttpResp (α : Type) where
  ok : Bool
  text : String
  json : α
deriving DecidableEq, Repr

/-- The `uploadResume` (api.ts): `if (!res.ok) throw new Error(await res.text());
return res.json();` -/
def uploadResume (r : HttpResp UploadResponse) : Except String UploadResponse :=
  if r.ok then Except.ok r.json else Except.error r.text

/-- The `uploadJD` (api.ts): same shape as `uploadResume`. -/
def uploadJD (r : HttpResp UploadResponse) : Except String UploadResponse :=
  if r.ok then Except.ok r.json else Except.error r.text

/-- The `getAnalysis` (api.ts): `return res.json();` — no `res.ok` check, never
throws on a non-OK status. -/
def getAnalysis (r : HttpResp AnalysisResponse) : Except String AnalysisResponse :=
  Except.ok r.json

/-- The `chat` (api.ts): posts `JSON.stringify({ question, history })` and
returns `res.json()` — no `res.ok` check, never throws on a non-OK status.
The first component is the exact request body sent. -/
def chat (question : String) (history : List ChatMessage)
    (r : HttpResp ChatResponse) : ChatRequest × Except String ChatResponse :=
  ({ question := question, history := history }, Except.ok r.json)

/-! ## Context Assembler (spec §4.5) — history truncation -/

/-- Modelled from the spec: the Context Assembler (§4.5) belongs to the
Python backend, which is absent from the available source files (only the
React frontend is present). Per the spec, the conversation history included
in the prompt payload "is truncated to at most the last 6 messages, oldest
of that window first". -/
def truncateHistory (history : List ChatMessage) : List ChatMessage :=
  (history.reverse.take 6).reverse

/-- The `truncateHistory` keeps exactly the last messages (helper). -/
theorem truncateHistory_eq_drop (l : List ChatMessage) :
    truncateHistory l = l.drop (l.length - 6) := by
  rw [truncateHistory, ← List.rtake_eq_reverse_take_reverse]
  rfl

end RS

namespace RS

/-- C1: the score rendered by the `MatchAnalysis` component equals
`match_score` clamped to `[0,100]` for every numeric `match_score`, is `0`
whenever `Number(match_score)` is `NaN`, and always lies within `[0,100]`. -/
theorem renderedScore_clamped :
    (∀ q : ℚ, renderedScore (NumberResult.val q) = max 0 (min 100 q)) ∧
    renderedScore NumberResult.nan = 0 ∧
    ∀ m : NumberResult, 0 ≤ renderedScore m ∧ renderedScore m ≤ 100 := by
  refine ⟨?_, ?_, ?_⟩
  · intro q
    by_cases h : q = 0
    · subst h; simp [renderedScore, numberOrZero]
    · simp [renderedScore, numberOrZero, h]
  · simp [renderedScore, numberOrZero]
  · intro m
    refine ⟨le_max_left _ _, ?_⟩
    calc max 0 (min 100 (numberOrZero m)) ≤ max 0 100 := by
          exact max_le_max le_rfl (min_le_left _ _)
      _ = 100 := by norm_num

/-- C2: when the `chat` response has `success: false` or the request throws,
`handleSubmit` appends no assistant message — the message list gains exactly
the one user message — and an error string is set; an assistant message is
appended only when the response has `success: true`. -/
theorem chat_failure_no_assistant (st : ChatState) (out : FetchOutcome ChatResponse)
    (hq : jsTrim st.input ≠ "") (hl : st.loading = false) :
    (chatFailed out →
      (handleSubmit st out).messages = st.messages ++ [⟨Role.user, jsTrim st.input⟩] ∧
      ∃ e, (handleSubmit st out).error = some e) ∧
    (∀ r, out = FetchOutcome.resp r → r.success = true →
      (handleSubmit st out).messages
        = st.messages ++ [⟨Role.user, jsTrim st.input⟩, ⟨Role.assistant, r.answer⟩]) := by
  constructor
  · intro hfail
    cases out with
    | resp r =>
        have hr : r.success = false := hfail
        simp [handleSubmit, submitStart, submitFinish, hq, hl, hr]
    | thrown =>
        simp [handleSubmit, submitStart, submitFinish, hq, hl]
  · intro r hout hs
    subst hout
    simp [handleSubmit, submitStart, submitFinish, hq, hl, hs]

/-- Witness for C2 at a concrete state and a thrown request. -/
theorem chat_failure_no_assistant_witness :
    (handleSubmit ⟨[], "hi", false, none⟩ FetchOutcome.thrown).messages
        = [] ++ [⟨Role.user, jsTrim ("hi")⟩] ∧
    ∃ e, (handleSubmit ⟨[], "hi", false, none⟩ FetchOutcome.thrown).error = some e :=
  (chat_failure_no_assistant ⟨[], "hi", false, none⟩ FetchOutcome.thrown
    (by decide) rfl).1 trivial

/-- C5: every chat request built by `handleSubmit` carries exactly a
`question` field (the trimmed input) and a `history` field equal to the
message list as it stood before this submission — the previously completed
turns held by the client — and the user message created for this question is
appended to the client's state only after the request history is fixed, so
the current question travels only in the `question` field. -/
theorem chat_request_shape (st st1 : ChatState) (req : ChatRequest)
    (h : submitStart st = some (st1, req)) :
    req.question = jsTrim st.input ∧
    req.history = st.messages ∧
    st1.messages = req.history ++ [⟨Role.user, req.question⟩] := by
  simp only [submitStart] at h
  split at h
  · exact absurd h (by simp)
  · rw [Option.some.injEq, Prod.mk.injEq] at h
    obtain ⟨h1, h2⟩ := h
    subst h1; subst h2
    exact ⟨rfl, rfl, rfl⟩

/-- Witness for C5 at a concrete submission. -/
theorem chat_request_shape_witness :
    (ChatRequest.mk ("hi") []).question = jsTrim ("hi") ∧
    (ChatRequest.mk ("hi") []).history = ([] : List ChatMessage) ∧
    (ChatState.mk [⟨Role.user, "hi"⟩] "" true none).messages
      = (ChatRequest.mk ("hi") []).history
          ++ [⟨Role.user, (ChatRequest.mk ("hi") []).question⟩] :=
  chat_request_shape ⟨[], "hi", false, none⟩ ⟨[⟨Role.user, "hi"⟩], "", true, none⟩
    ⟨"hi", []⟩ (by decide)

/-- C9: no two chat requests are in flight at once — while `loading` is true
the submit handler sends nothing and both the text input and the send button
are disabled; a request is also never sent when the trimmed question is
empty; `loading` is set true on each send and is false again only once the
request settles. -/
theorem no_concurrent_chat_requests (st : ChatState) :
    (st.loading = true → submitStart st = none) ∧
    (jsTrim st.input = "" → submitStart st = none) ∧
    (st.loading = true → chatInputDisabled st = true ∧ sendDisabled st = true) ∧
    (∀ st1 req, submitStart st = some (st1, req) → st1.loading = true) ∧
    (∀ st' out, (submitFinish st' out).loading = false) := by
  refine ⟨?_, ?_, ?_, ?_, ?_⟩
  · intro h; simp [submitStart, h]
  · intro h; simp [submitStart, h]
  · intro h; simp [chatInputDisabled, sendDisabled, h]
  · intro st1 req h
    simp only [submitStart] at h
    split at h
    · exact absurd h (by simp)
    · rw [Option.some.injEq, Prod.mk.injEq] at h
      rw [← h.1]
  · intro st' out
    cases out with
    | resp r => by_cases hs : r.success <;> simp [submitFinish, hs]
    | thrown => simp [submitFinish]

/-- The `loadAnalysis` never touches `resumeUploaded` (helper). -/
theorem loadAnalysis_resumeUploaded (st : AppState) (out : FetchOutcome AnalysisResponse) :
    (loadAnalysis st out).resumeUploaded = st.resumeUploaded := by
  cases out with
  | resp d => by_cases h : d.success && d.analysis.isSome <;> simp [loadAnalysis, h]
  | thrown => simp [loadAnalysis]

/-- States reached without a successful resume upload keep
`resumeUploaded = false` (helper). -/
theorem appRun_resumeUploaded_false (st : AppState) (es : List AppEvent)
    (hst : st.resumeUploaded = false)
    (hes : ∀ info, AppEvent.resumeUpload info ∉ es) :
    (appRun st es).resumeUploaded = false := by
  induction es generalizing st with
  | nil => exact hst
  | cons e tl ih =>
      have he : ∀ info, AppEvent.resumeUpload info ∉ tl := by
        intro info h
        exact hes info (List.mem_cons_of_mem _ h)
      cases e with
      | resumeUpload info => exact absurd (List.mem_cons_self _ _) (hes info)
      | jdUpload info =>
          exact ih (handleJDUpload st info) (by simp [handleJDUpload, hst]) he
      | analysisFetch out =>
          exact ih (loadAnalysis st out) ((loadAnalysis_resumeUploaded st out).trans hst) he
      | healthCheck ok =>
          exact ih _ hst he

/-- C4: in every `App` state reachable from the initial state by a sequence
of events containing no successful resume upload, the chat section renders
the hint, not `ChatInterface` — so no chat/retrieval request can originate
before a resume upload has succeeded. -/
theorem chat_requires_resume_upload (es : List AppEvent)
    (hes : ∀ info, AppEvent.resumeUpload info ∉ es) :
    renderChatPanel (appRun initialAppState es) = ChatPanel.hint := by
  have h := appRun_resumeUploaded_false initialAppState es rfl hes
  simp [renderChatPanel, h]

/-- Witness for C4 on a concrete event sequence without a resume upload. -/
theorem chat_requires_resume_upload_witness :
    renderChatPanel (appRun initialAppState
        [AppEvent.jdUpload ⟨none, none, none⟩, AppEvent.healthCheck true])
      = ChatPanel.hint :=
  chat_requires_resume_upload
    [AppEvent.jdUpload ⟨none, none, none⟩, AppEvent.healthCheck true]
    (by intro info h; simp at h)

/-- C6: the "Run analysis" button is rendered only when both uploads have
succeeded; `loadAnalysis` installs an analysis only from a response with
`success: true` and a present `analysis` object; a failing outcome leaves
the displayed analysis unchanged (so an absent analysis stays absent) and
sets an error string — the response's
`error` field (with a fixed fallback) for a response failure, a fixed
message for a thrown fetch. -/
theorem analysis_gating (st : AppState) (out : FetchOutcome AnalysisResponse) :
    (canAnalyze st = false → renderAnalysisPanel st = AnalysisPanel.uploadHint) ∧
    (∀ d, out = FetchOutcome.resp d → d.success = true → d.analysis.isSome = true →
      (loadAnalysis st out).analysis = d.analysis) ∧
    (analysisFailed out →
      (loadAnalysis st out).analysis = st.analysis ∧
      (st.analysis = none → (loadAnalysis st out).analysis = none) ∧
      ∃ e, (loadAnalysis st out).analysisError = some e) ∧
    (∀ d, out = FetchOutcome.resp d → (d.success = false ∨ d.analysis = none) →
      (loadAnalysis st out).analysisError = some (jsOr d.error ("Failed to load analysis"))) ∧
    (out = FetchOutcome.thrown →
      (loadAnalysis st out).analysisError = some ("Failed to fetch analysis")) := by
  refine ⟨?_, ?_, ?_, ?_, ?_⟩
  · intro h; simp [renderAnalysisPanel, h]
  · intro d hout hs ha
    subst hout
    simp [loadAnalysis, hs, ha]
  · intro hfail
    have hA : (loadAnalysis st out).analysis = st.analysis := by
      cases out with
      | resp d =>
          have hcond : (d.success && d.analysis.isSome) = false := by
            rcases hfail with h | h
            · simp [h]
            · simp [h]
          simp [loadAnalysis, hcond]
      | thrown => simp [loadAnalysis]
    have hE : ∃ e, (loadAnalysis st out).analysisError = some e := by
      cases out with
      | resp d =>
          have hcond : (d.success && d.analysis.isSome) = false := by
            rcases hfail with h | h
            · simp [h]
            · simp [h]
          simp [loadAnalysis, hcond]
      | thrown => simp [loadAnalysis]
    exact ⟨hA, fun h => hA.trans h, hE⟩
  · intro d hout hfail
    subst hout
    have hcond : (d.success && d.analysis.isSome) = false := by
      rcases hfail with h | h
      · simp [h]
      · simp [h]
    simp [loadAnalysis, hcond]
  · intro hout
    subst hout
    simp [loadAnalysis]

/-- Witness for C6 at concrete states and outcomes. -/
theorem analysis_gating_witness :
    renderAnalysisPanel initialAppState = AnalysisPanel.uploadHint ∧
    (loadAnalysis initialAppState
        (FetchOutcome.resp ⟨true, some ⟨NumberResult.val 75, [], [], [], [], []⟩, none⟩)).analysis
      = some ⟨NumberResult.val 75, [], [], [], [], []⟩ ∧
    (loadAnalysis initialAppState FetchOutcome.thrown).analysisError
      = some ("Failed to fetch analysis") :=
  ⟨(analysis_gating initialAppState FetchOutcome.thrown).1 rfl,
   (analysis_gating initialAppState
      (FetchOutcome.resp ⟨true, some ⟨NumberResult.val 75, [], [], [], [], []⟩, none⟩)).2.1
      ⟨true, some ⟨NumberResult.val 75, [], [], [], [], []⟩, none⟩ rfl rfl rfl,
   (analysis_gating initialAppState FetchOutcome.thrown).2.2.2.2 rfl⟩

/-- C7: a successful upload of either kind clears the displayed analysis and
the analysis error and records its own upload state and file info, while
leaving the other kind's upload state and file info unchanged. -/
theorem upload_clears_analysis_frame (st : AppState) (info : UploadInfo) :
    (handleResumeUpload st info).analysis = none ∧
    (handleResumeUpload st info).analysisError = none ∧
    (handleResumeUpload st info).resumeUploaded = true ∧
    (handleResumeUpload st info).resumeInfo = some info ∧
    (handleResumeUpload st info).jdUploaded = st.jdUploaded ∧
    (handleResumeUpload st info).jdInfo = st.jdInfo ∧
    (handleJDUpload st info).analysis = none ∧
    (handleJDUpload st info).analysisError = none ∧
    (handleJDUpload st info).jdUploaded = true ∧
    (handleJDUpload st info).jdInfo = some info ∧
    (handleJDUpload st info).resumeUploaded = st.resumeUploaded ∧
    (handleJDUpload st info).resumeInfo = st.resumeInfo :=
  ⟨rfl, rfl, rfl, rfl, rfl, rfl, rfl, rfl, rfl, rfl, rfl, rfl⟩

/-- C3: the history included in the prompt payload is truncated to at most
the last 6 messages of the conversation; the kept window is a contiguous
final segment of the history (so the oldest message of that window comes
first, original order preserved), it is the whole history when that has at
most 6 messages, and exactly 6 when the history is longer. -/
theorem history_truncated (history : List ChatMessage) :
    (truncateHistory history).length ≤ 6 ∧
    history.take (history.length - 6) ++ truncateHistory history = history ∧
    (history.length ≤ 6 → truncateHistory history = history) ∧
    (6 ≤ history.length → (truncateHistory history).length = 6) := by
  refine ⟨?_, ?_, ?_, ?_⟩
  · rw [truncateHistory_eq_drop]
    simp only [List.length_drop]
    omega
  · rw [truncateHistory_eq_drop]
    exact List.take_append_drop _ _
  · intro h
    rw [truncateHistory_eq_drop]
    have h0 : history.length - 6 = 0 := by omega
    simp [h0]
  · intro h
    rw [truncateHistory_eq_drop]
    simp only [List.length_drop]
    omega

/-- Witness for C3 at a concrete short history. -/
theorem history_truncated_witness :
    truncateHistory [⟨Role.user, "a"⟩, ⟨Role.assistant, "b"⟩]
      = [⟨Role.user, "a"⟩, ⟨Role.assistant, "b"⟩] :=
  (history_truncated [⟨Role.user, "a"⟩, ⟨Role.assistant, "b"⟩]).2.2.1 (by decide)

/-- C8: with a file selected, a non-OK upload response sets
`status = "error"` with the message derived from the body's `detail` — the
string itself when `detail` is a string, the first validation item's `msg`
when it is an array, and `"Upload failed"` otherwise or when those are
empty/absent — and does not invoke `onSuccess`; `onSuccess` is invoked only
on an OK response, with the response's `filename`, `text_length` and
`message`. -/
theorem upload_error_handling (st : FileUploadState) (body : UploadBody)
    (hf : st.file.isSome = true) :
    ((handleUpload st (UploadFetch.resp false body)).1.status = UploadStatus.error ∧
     (handleUpload st (UploadFetch.resp false body)).1.message = deriveDetailErr body.detail ∧
     (handleUpload st (UploadFetch.resp false body)).2 = none) ∧
    (handleUpload st (UploadFetch.resp true body)).2
      = some ⟨body.filename, body.text_length, body.message⟩ ∧
    (∀ m, (handleUpload st (UploadFetch.netError m)).2 = none) ∧
    (∀ s, s ≠ "" → deriveDetailErr (JsonDetail.strD s) = s) ∧
    (∀ m rest, m ≠ "" → deriveDetailErr (JsonDetail.arrD (some m :: rest)) = m) ∧
    deriveDetailErr JsonDetail.absent = "Upload failed" := by
  obtain ⟨f, hf'⟩ := Option.isSome_iff_exists.mp hf
  refine ⟨?_, ?_, ?_, ?_, ?_, rfl⟩
  · simp [handleUpload, hf']
  · simp [handleUpload, hf']
  · intro m; simp [handleUpload, hf']
  · intro s hs; simp [deriveDetailErr, jsOr, hs]
  · intro m rest hm; simp [deriveDetailErr, jsOr, hm]

/-- Witness for C8 at a concrete state and a concrete rejected response. -/
theorem upload_error_handling_witness :
    ((handleUpload ⟨some ("r.pdf"), UploadStatus.idle, ""⟩
        (UploadFetch.resp false ⟨JsonDetail.strD ("Unsupported format"), none, none, none⟩)).1.status
       = UploadStatus.error ∧
     (handleUpload ⟨some ("r.pdf"), UploadStatus.idle, ""⟩
        (UploadFetch.resp false ⟨JsonDetail.strD ("Unsupported format"), none, none, none⟩)).1.message
       = deriveDetailErr (JsonDetail.strD ("Unsupported format")) ∧
     (handleUpload ⟨some ("r.pdf"), UploadStatus.idle, ""⟩
        (UploadFetch.resp false ⟨JsonDetail.strD ("Unsupported format"), none, none, none⟩)).2
       = none) :=
  (upload_error_handling ⟨some ("r.pdf"), UploadStatus.idle, ""⟩
    ⟨JsonDetail.strD ("Unsupported format"), none, none, none⟩ rfl).1

/-- C10: the api client's error surfaces are asymmetric — `uploadResume` and
`uploadJD` throw the response body text exactly when the HTTP status is not
OK and return the parsed JSON body otherwise, while `getAnalysis` and `chat`
return the parsed JSON body regardless of the status and never throw. -/
theorem api_error_asymmetry
    (ru rj : HttpResp UploadResponse) (ra : HttpResp AnalysisResponse)
    (q : String) (hist : List ChatMessage) (rc : HttpResp ChatResponse) :
    (ru.ok = false → uploadResume ru = Except.error ru.text) ∧
    (ru.ok = true → uploadResume ru = Except.ok ru.json) ∧
    (rj.ok = false → uploadJD rj = Except.error rj.text) ∧
    (rj.ok = true → uploadJD rj = Except.ok rj.json) ∧
    getAnalysis ra = Except.ok ra.json ∧
    (chat q hist rc).2 = Except.ok rc.json := by
  refine ⟨?_, ?_, ?_, ?_, rfl, rfl⟩ <;> intro h <;> simp [uploadResume, uploadJD, h]

/-- Witness for C10 at concrete responses. -/
theorem api_error_asymmetry_witness :
    uploadResume ⟨false, "boom", ⟨false, "", none, none⟩⟩ = Except.error ("boom") ∧
    uploadJD ⟨true, "", ⟨true, "ok", none, none⟩⟩
      = Except.ok (⟨true, "ok", none, none⟩ : UploadResponse) ∧
    getAnalysis ⟨false, "", ⟨false, none, some ("Missing documents")⟩⟩
      = Except.ok (⟨false, none, some ("Missing documents")⟩ : AnalysisResponse) :=
  ⟨(api_error_asymmetry ⟨false, "boom", ⟨false, "", none, none⟩⟩
      ⟨true, "", ⟨true, "ok", none, none⟩⟩
      ⟨false, "", ⟨false, none, some ("Missing documents")⟩⟩
      "" [] ⟨false, "", ⟨false, "", none⟩⟩).1 rfl,
   (api_error_asymmetry ⟨false, "boom", ⟨false, "", none, none⟩⟩
      ⟨true, "", ⟨true, "ok", none, none⟩⟩
      ⟨false, "", ⟨false, none, some ("Missing documents")⟩⟩
      "" [] ⟨false, "", ⟨false, "", none⟩⟩).2.2.2.1 rfl,
   (api_error_asymmetry ⟨false, "boom", ⟨false, "", none, none⟩⟩
      ⟨true, "", ⟨true, "ok", none, none⟩⟩
      ⟨false, "", ⟨false, none, some ("Missing documents")⟩⟩
      "" [] ⟨false, "", ⟨false, "", none⟩⟩).2.2.2.2.1⟩

/-- Witness for C9 at concrete states. -/
theorem no_concurrent_chat_requests_witness :
    submitStart ⟨[], "q", true, none⟩ = none ∧
    submitStart ⟨[], "  ", false, none⟩ = none ∧
    (submitFinish ⟨[], "", true, none⟩ FetchOutcome.thrown).loading = false :=
  ⟨(no_concurrent_chat_requests ⟨[], "q", true, none⟩).1 rfl,
   (no_concurrent_chat_requests ⟨[], "  ", false, none⟩).2.1 (by decide),
   (no_concurrent_chat_requests ⟨[], "", true, none⟩).2.2.2.2
     ⟨[], "", true, none⟩ FetchOutcome.thrown⟩

end RS
